import Mathlib

/-!
Shallow embedding of the signal-subscription and idle-notification facilities
of the `system` repository (packages `pkg/lock`, `pkg/inhibit`, `pkg/idle`).

Channels are modelled by opaque identities (`Chan := Nat`); a Go channel
argument that may be `nil` is modelled as `Option Chan` with `none` standing
for the nil channel. Go maps `map[chan<- T]struct{}` become `Finset Chan`.
Transport (D-Bus / Wayland) calls are modelled by boolean parameters saying
whether the call in question succeeds, and by recording the calls issued.
Go panics are modelled as explicit outcome constructors.
-/

/-- Opaque identity of a Go channel (reference equality). -/
abbrev Chan : Type := Nat

/-- Lifecycle of a Go `chan struct\x7b\x7d` used purely for close-signalling:
Go zero value is the nil channel; `make` yields an open channel; `close`
moves an open channel to closed. -/
inductive ChanLifecycle where
  | nilChan
  | openChan
  | closedChan
deriving DecidableEq, Repr

/-- Go semantics: a receive from a channel can ever complete (be selected)
only if the channel is not nil; receiving from a nil channel blocks forever. -/
def ChanLifecycle.everReceivable : ChanLifecycle → Bool
  | .nilChan => false
  | .openChan => true
  | .closedChan => true

/-- Go semantics of `close(ch)`: panics on a nil or already-closed channel,
otherwise the channel becomes closed. -/
def ChanLifecycle.closeChan : ChanLifecycle → Option ChanLifecycle
  | .nilChan => none
  | .openChan => some .closedChan
  | .closedChan => none

/-! ## `pkg/inhibit`: `joinWhat` and the `Inhibit` wire string -/

/-- The `What` values are plain strings on the wire (`type What string`). -/
abbrev What : Type := String

def WhatHandleHibernateKey : What := "handle-hibernate-key"
def WhatHandleLidSwitch : What := "handle-lid-switch"
def WhatHandlePowerKey : What := "handle-power-key"
def WhatHandleSuspendKey : What := "handle-suspend-key"
def WhatIdle : What := "idle"
def WhatShutdown : What := "shutdown"
def WhatSleep : What := "sleep"

/-- Result of running `joinWhat`: either the built string, or one of the two
panics its body can raise — `strings.Builder.Grow` panics on a negative
count, and `elems[0]` panics on an empty slice. -/
inductive JoinResult where
  | ok (s : String)
  | panicGrowNegative
  | panicIndexOutOfRange
deriving DecidableEq, Repr

/-- Embedding of `joinWhat` (src/pkg/inhibit/dbus.go:278-294).
`n := len(sep) * (len(elems) - 1)` is Go `int` arithmetic, so for an empty
slice `n = -1`; `b.Grow(n)` is evaluated before `elems[0]`, and Go
documents that `Grow` panics when its argument is negative. -/
def joinWhatGrowArg (elems : List What) : Int :=
  1 * ((elems.length : Int) - 1) + (elems.map (fun e => (e.length : Int))).sum

def joinWhat (elems : List What) : JoinResult :=
  if joinWhatGrowArg elems < 0 then
    .panicGrowNegative
  else
    match elems with
    | [] => .panicIndexOutOfRange
    | e :: rest => .ok (rest.foldl (fun acc s => acc ++ ":" ++ s) e)

/-- The first positional argument of the `org.freedesktop.login1.Manager.Inhibit`
RPC issued by `Inhibitor.Inhibit` (src/pkg/inhibit/dbus.go:88-99) is
`joinWhat(what)`. -/
def inhibitWhatWireArg (what : List What) : JoinResult := joinWhat what

/-- Spec-side meaning of "the values joined with the separator `:`". -/
def sepJoin : List String → String
  | [] => ""
  | [a] => a
  | a :: rest => a ++ ":" ++ sepJoin rest

/-! ## `pkg/idle`: `waylandIdleController.AddNotification` -/

/-- `math.MaxUint32`. -/
def maxUint32 : Int := 4294967295

/-- Outcome of `AddNotification` (src/pkg/idle/wayland_controller.go:180-226):
`calledWith` records the `durationMs` argument actually passed to
`notifier.GetIdleNotification` (`none` when no call was made), `handle`
records the millisecond value bound into the returned notification handle
(`none` when an error was returned instead of a handle). -/
structure AddNotifOut where
  calledWith : Option Nat
  handle : Option Nat
  isError : Bool
deriving DecidableEq, Repr

/-- Embedding of `AddNotification`. `idleSet` / `resumeSet` say whether the
`Idle` / `Resume` channels of the input are non-nil; `durationMs` is
`notificationInput.Duration.Milliseconds()` (an `int64`); `getOk` says
whether the underlying `GetIdleNotification` call succeeds. -/
def addNotification (idleSet resumeSet : Bool) (durationMs : Int)
    (getOk : Bool) : AddNotifOut :=
  if !idleSet && !resumeSet then
    ⟨none, none, true⟩
  else if durationMs > maxUint32 then
    ⟨none, none, true⟩
  else
    let d : Nat := if durationMs < 0 then 0 else durationMs.toNat
    if getOk then ⟨some d, some d, false⟩ else ⟨some d, none, true⟩

/-! ## Transport calls and operation outcomes -/

/-- The signal kinds for which the two facilities register matches. -/
inductive SignalKind where
  | lockK
  | unlockK
  | lockedHintK
  | sleepK
  | shutdownK
deriving DecidableEq, Repr

/-- A call issued to the transport (`conn.AddMatchSignal` / `conn.RemoveMatchSignal`). -/
inductive TCall where
  | addMatch (k : SignalKind)
  | removeMatch (k : SignalKind)
deriving DecidableEq, Repr

/-- Outcome of one facility operation: the updated facility state, whether the
operation returned a nil error (`ok = true`), and the transport calls it
issued, in order. -/
structure OpOut (σ : Type) where
  state : σ
  ok : Bool
  calls : List TCall
deriving DecidableEq, Repr

/-- Outcome of a `Close` call: either it returned (with a nil or non-nil
joined error), or it panicked in `close()` on a nil/closed channel. -/
inductive CloseOutcome where
  | returned (ok : Bool)
  | panicClose
deriving DecidableEq, Repr

/-- Result of a whole-facility `Close`. -/
structure CloseOut (σ : Type) where
  state : σ
  outcome : CloseOutcome
  calls : List TCall
deriving DecidableEq, Repr

/-! ## `pkg/lock`: the `dbusCon` implementation of `Lock` -/

/-- Mutable state of `dbusCon` (src/pkg/lock/lock.go:66-79). The connection
handle and session object are reduced to the session object path used in
match rules and dispatch. -/
structure DbusCon where
  loginSessionObjectPath : String
  lockSignals : Finset Chan
  lockedHintSignals : Finset Chan
  unlockSignals : Finset Chan
  lockSignalActive : Bool
  propertiesChangedActive : Bool
  unlockSignalActive : Bool
  closeSignalHandler : ChanLifecycle
deriving DecidableEq

/-- The `dbusCon` as initialized inside `NewDbusSessionLock`
(src/pkg/lock/lock.go:96-106): empty sets, inactive flags, open close
channel. -/
def DbusCon.fresh (path : String) : DbusCon :=
  ⟨path, ∅, ∅, ∅, false, false, false, .openChan⟩

/-- Embedding of `dbusCon.AddLockSignal` (src/pkg/lock/lock.go:181-204).
Note the source inserts the channel into `lockSignals` before issuing the
add-match call, so a failed call leaves the channel inserted. `addOk` is
the result of `conn.AddMatchSignal`. -/
def DbusCon.AddLockSignal (dc : DbusCon) (c : Option Chan) (addOk : Bool) :
    OpOut DbusCon :=
  match c with
  | none => ⟨dc, false, []⟩
  | some ch =>
    let dc := { dc with lockSignals := insert ch dc.lockSignals }
    if !dc.lockSignalActive then
      if addOk then
        ⟨{ dc with lockSignalActive := true }, true, [.addMatch .lockK]⟩
      else
        ⟨dc, false, [.addMatch .lockK]⟩
    else
      ⟨dc, true, []⟩

/-- Embedding of the private helper `dbusCon.removeLockSignal`
(src/pkg/lock/lock.go:227-244): a no-op unless the match is active. -/
def DbusCon.removeLockSignal (dc : DbusCon) (rmOk : Bool) : OpOut DbusCon :=
  if !dc.lockSignalActive then
    ⟨dc, true, []⟩
  else if rmOk then
    ⟨{ dc with lockSignalActive := false }, true, [.removeMatch .lockK]⟩
  else
    ⟨dc, false, [.removeMatch .lockK]⟩

/-- Embedding of `dbusCon.RemoveLockSignal` (src/pkg/lock/lock.go:206-223). -/
def DbusCon.RemoveLockSignal (dc : DbusCon) (c : Option Chan) (rmOk : Bool) :
    OpOut DbusCon :=
  match c with
  | none => ⟨dc, false, []⟩
  | some ch =>
    let dc := { dc with lockSignals := dc.lockSignals.erase ch }
    if dc.lockSignals = ∅ then
      dc.removeLockSignal rmOk
    else
      ⟨dc, true, []⟩

/-- Embedding of `dbusCon.AddUnlockSignal` (src/pkg/lock/lock.go:246-269);
same shape as `AddLockSignal`, channel inserted before the match call. -/
def DbusCon.AddUnlockSignal (dc : DbusCon) (c : Option Chan) (addOk : Bool) :
    OpOut DbusCon :=
  match c with
  | none => ⟨dc, false, []⟩
  | some ch =>
    let dc := { dc with unlockSignals := insert ch dc.unlockSignals }
    if !dc.unlockSignalActive then
      if addOk then
        ⟨{ dc with unlockSignalActive := true }, true, [.addMatch .unlockK]⟩
      else
        ⟨dc, false, [.addMatch .unlockK]⟩
    else
      ⟨dc, true, []⟩

/-- Embedding of the private helper `dbusCon.removeUnlockSignal`
(src/pkg/lock/lock.go:292-309). -/
def DbusCon.removeUnlockSignal (dc : DbusCon) (rmOk : Bool) : OpOut DbusCon :=
  if !dc.unlockSignalActive then
    ⟨dc, true, []⟩
  else if rmOk then
    ⟨{ dc with unlockSignalActive := false }, true, [.removeMatch .unlockK]⟩
  else
    ⟨dc, false, [.removeMatch .unlockK]⟩

/-- Embedding of `dbusCon.RemoveUnlockSignal` (src/pkg/lock/lock.go:271-288). -/
def DbusCon.RemoveUnlockSignal (dc : DbusCon) (c : Option Chan) (rmOk : Bool) :
    OpOut DbusCon :=
  match c with
  | none => ⟨dc, false, []⟩
  | some ch =>
    let dc := { dc with unlockSignals := dc.unlockSignals.erase ch }
    if dc.unlockSignals = ∅ then
      dc.removeUnlockSignal rmOk
    else
      ⟨dc, true, []⟩

/-- Embedding of `dbusCon.AddLockedSignal` (src/pkg/lock/lock.go:311-334);
channel inserted before the `PropertiesChanged` add-match call. -/
def DbusCon.AddLockedSignal (dc : DbusCon) (c : Option Chan) (addOk : Bool) :
    OpOut DbusCon :=
  match c with
  | none => ⟨dc, false, []⟩
  | some ch =>
    let dc := { dc with lockedHintSignals := insert ch dc.lockedHintSignals }
    if !dc.propertiesChangedActive then
      if addOk then
        ⟨{ dc with propertiesChangedActive := true }, true, [.addMatch .lockedHintK]⟩
      else
        ⟨dc, false, [.addMatch .lockedHintK]⟩
    else
      ⟨dc, true, []⟩

/-- Embedding of the private helper `dbusCon.removePropertiesChangedSignal`
(src/pkg/lock/lock.go:357-374). -/
def DbusCon.removePropertiesChangedSignal (dc : DbusCon) (rmOk : Bool) :
    OpOut DbusCon :=
  if !dc.propertiesChangedActive then
    ⟨dc, true, []⟩
  else if rmOk then
    ⟨{ dc with propertiesChangedActive := false }, true, [.removeMatch .lockedHintK]⟩
  else
    ⟨dc, false, [.removeMatch .lockedHintK]⟩

/-- Embedding of `dbusCon.RemoveLockedSignal` (src/pkg/lock/lock.go:336-353). -/
def DbusCon.RemoveLockedSignal (dc : DbusCon) (c : Option Chan) (rmOk : Bool) :
    OpOut DbusCon :=
  match c with
  | none => ⟨dc, false, []⟩
  | some ch =>
    let dc := { dc with lockedHintSignals := dc.lockedHintSignals.erase ch }
    if dc.lockedHintSignals = ∅ then
      dc.removePropertiesChangedSignal rmOk
    else
      ⟨dc, true, []⟩

/-- Embedding of `dbusCon.Close` (src/pkg/lock/lock.go:376-391): clears each
set, runs the three guarded remove helpers joining their errors, then calls
`close(dc.closeSignalHandler)` — which, by Go semantics, panics if the
channel is already closed. -/
def DbusCon.Close (dc : DbusCon) (rmLockOk rmUnlockOk rmPropOk : Bool) :
    CloseOut DbusCon :=
  let dc := { dc with lockSignals := (∅ : Finset Chan) }
  let r1 := dc.removeLockSignal rmLockOk
  let dc := { r1.state with unlockSignals := (∅ : Finset Chan) }
  let r2 := dc.removeUnlockSignal rmUnlockOk
  let dc := { r2.state with lockedHintSignals := (∅ : Finset Chan) }
  let r3 := dc.removePropertiesChangedSignal rmPropOk
  let dc := r3.state
  let calls := r1.calls ++ r2.calls ++ r3.calls
  match dc.closeSignalHandler.closeChan with
  | none => ⟨dc, .panicClose, calls⟩
  | some h => ⟨{ dc with closeSignalHandler := h },
      .returned (r1.ok && r2.ok && r3.ok), calls⟩

/-! ## `pkg/inhibit`: the `Inhibitor` -/

/-- Mutable state of `Inhibitor` (src/pkg/inhibit/dbus.go:19-26). The
connection and `login1` object are fixed (`dbusPath`), so only the two
subscriber sets and the close channel remain. -/
structure Inhibitor where
  prepareForSleepSubs : Finset Chan
  prepareForShutdownSubs : Finset Chan
  closeSignalHandler : ChanLifecycle
deriving DecidableEq

/-- The `Inhibitor` built by `New` (src/pkg/inhibit/dbus.go:28-55): the two
maps are made, but `closeSignalHandler` is never assigned, so it keeps the
Go zero value — the nil channel. -/
def Inhibitor.new : Inhibitor :=
  ⟨∅, ∅, .nilChan⟩

/-- Embedding of `Inhibitor.SubscribePrepareForSleep`
(src/pkg/inhibit/dbus.go:146-168): the add-match call is issued before the
channel is inserted, so a failed call leaves the state unchanged. -/
def Inhibitor.SubscribePrepareForSleep (i : Inhibitor) (c : Option Chan)
    (addOk : Bool) : OpOut Inhibitor :=
  match c with
  | none => ⟨i, false, []⟩
  | some ch =>
    if i.prepareForSleepSubs = ∅ then
      if addOk then
        ⟨{ i with prepareForSleepSubs := insert ch i.prepareForSleepSubs },
          true, [.addMatch .sleepK]⟩
      else
        ⟨i, false, [.addMatch .sleepK]⟩
    else
      ⟨{ i with prepareForSleepSubs := insert ch i.prepareForSleepSubs },
        true, []⟩

/-- Embedding of `Inhibitor.UnsubscribePrepareForSleep`
(src/pkg/inhibit/dbus.go:170-187). Unlike the lock facility there is no
activation flag: whenever the set is empty after the delete, the
remove-match call (`removePrepareForSleepSignal`,
src/pkg/inhibit/dbus.go:189-200) is issued unconditionally. -/
def Inhibitor.UnsubscribePrepareForSleep (i : Inhibitor) (c : Option Chan)
    (rmOk : Bool) : OpOut Inhibitor :=
  match c with
  | none => ⟨i, false, []⟩
  | some ch =>
    let i := { i with prepareForSleepSubs := i.prepareForSleepSubs.erase ch }
    if i.prepareForSleepSubs = ∅ then
      if rmOk then
        ⟨i, true, [.removeMatch .sleepK]⟩
      else
        ⟨i, false, [.removeMatch .sleepK]⟩
    else
      ⟨i, true, []⟩

/-- Embedding of `Inhibitor.SubscribePrepareForShutdown`
(src/pkg/inhibit/dbus.go:206-228). -/
def Inhibitor.SubscribePrepareForShutdown (i : Inhibitor) (c : Option Chan)
    (addOk : Bool) : OpOut Inhibitor :=
  match c with
  | none => ⟨i, false, []⟩
  | some ch =>
    if i.prepareForShutdownSubs = ∅ then
      if addOk then
        ⟨{ i with prepareForShutdownSubs := insert ch i.prepareForShutdownSubs },
          true, [.addMatch .shutdownK]⟩
      else
        ⟨i, false, [.addMatch .shutdownK]⟩
    else
      ⟨{ i with prepareForShutdownSubs := insert ch i.prepareForShutdownSubs },
        true, []⟩

/-- Embedding of `Inhibitor.UnsubscribePrepareForShutdown`
(src/pkg/inhibit/dbus.go:230-247); the remove helper
(src/pkg/inhibit/dbus.go:249-260) is again unguarded. -/
def Inhibitor.UnsubscribePrepareForShutdown (i : Inhibitor) (c : Option Chan)
    (rmOk : Bool) : OpOut Inhibitor :=
  match c with
  | none => ⟨i, false, []⟩
  | some ch =>
    let i := { i with prepareForShutdownSubs := i.prepareForShutdownSubs.erase ch }
    if i.prepareForShutdownSubs = ∅ then
      if rmOk then
        ⟨i, true, [.removeMatch .shutdownK]⟩
      else
        ⟨i, false, [.removeMatch .shutdownK]⟩
    else
      ⟨i, true, []⟩

/-- Embedding of `Inhibitor.Close` (src/pkg/inhibit/dbus.go:263-276): clears
the sleep subscribers, issues the (unguarded) shutdown remove-match, clears
the shutdown subscribers, issues the sleep remove-match, joins the errors,
then calls `close(i.closeSignalHandler)` — a panic when that channel is nil
or already closed. -/
def Inhibitor.Close (i : Inhibitor) (rmShutdownOk rmSleepOk : Bool) :
    CloseOut Inhibitor :=
  let i := { i with prepareForSleepSubs := (∅ : Finset Chan) }
  let i := { i with prepareForShutdownSubs := (∅ : Finset Chan) }
  let calls : List TCall := [.removeMatch .shutdownK, .removeMatch .sleepK]
  match i.closeSignalHandler.closeChan with
  | none => ⟨i, .panicClose, calls⟩
  | some h => ⟨{ i with closeSignalHandler := h },
      .returned (rmShutdownOk && rmSleepOk), calls⟩

/-! ## Incoming signals and dispatch -/

/-- Dynamically-typed D-Bus values as they appear in a signal body or a
`ListSessions` reply: `interface\x7b\x7d` values inspected via type
assertions. `dict` models `map[string]dbus.Variant` with the variant value
unwrapped. -/
inductive GoVal where
  | bool (b : Bool)
  | str (s : String)
  | objPath (p : String)
  | int (n : Int)
  | arr (xs : List GoVal)
  | dict (m : List (String × GoVal))
  | other

/-- A `*dbus.Signal`: originating object path, fully-qualified member name,
ordered body. -/
structure DSignal where
  path : String
  name : String
  body : List GoVal

/-- Outcome of one `handleIncomingSignal` call: the signal was ignored, or
fanned out (each channel in `targets` got one non-blocking send attempt of
the given payload), or the dispatch panicked. -/
inductive DispatchOutcome where
  | ignored
  | deliveredUnit (targets : Finset Chan)
  | deliveredBool (b : Bool) (targets : Finset Chan)
  | panicked (msg : String)

/-- Is the outcome a panic? -/
def DispatchOutcome.isPanic : DispatchOutcome → Bool
  | .panicked _ => true
  | _ => false

/-- The login1 manager object path (`dbusPath`). -/
def login1Path : String := "/org/freedesktop/login1"

/-- Embedding of `Inhibitor.handleIncomingSignal`
(src/pkg/inhibit/dbus.go:101-141). A nil signal or a foreign path is
ignored; for the two handled members, `s.Body[0]` is indexed (a Go runtime
panic when the body is empty) and type-asserted to `bool` (an explicit
panic when it is not a boolean). -/
def Inhibitor.handleIncomingSignal (i : Inhibitor) (s : Option DSignal) :
    DispatchOutcome :=
  match s with
  | none => .ignored
  | some s =>
    if s.path ≠ login1Path then
      .ignored
    else if s.name = "org.freedesktop.login1.Manager.PrepareForSleep" then
      match s.body.head? with
      | none => .panicked "runtime error: index out of range"
      | some (.bool change) => .deliveredBool change i.prepareForSleepSubs
      | some _ => .panicked
          "org.freedesktop.login1.Manager.PrepareForSleep signal, body[0] is not a boolean"
    else if s.name = "org.freedesktop.login1.Manager.PrepareForShutdown" then
      match s.body.head? with
      | none => .panicked "runtime error: index out of range"
      | some (.bool change) => .deliveredBool change i.prepareForShutdownSubs
      | some _ => .panicked
          "org.freedesktop.login1.Manager.PrepareForShutdown signal, body[0] is not a boolean"
    else
      .ignored

/-- Embedding of `dbusCon.handleIncomingSignal` (src/pkg/lock/lock.go:393-440).
For `PropertiesChanged`, `s.Body[1]` is indexed (runtime panic when too
short) and type-asserted without the comma-ok form (runtime panic when not
a map); a missing `LockedHint` key is ignored; a non-boolean `LockedHint`
is an explicit panic. -/
def DbusCon.handleIncomingSignal (dc : DbusCon) (s : Option DSignal) :
    DispatchOutcome :=
  match s with
  | none => .ignored
  | some s =>
    if s.path ≠ dc.loginSessionObjectPath then
      .ignored
    else if s.name = "org.freedesktop.login1.Session.Lock" then
      .deliveredUnit dc.lockSignals
    else if s.name = "org.freedesktop.login1.Session.Unlock" then
      .deliveredUnit dc.unlockSignals
    else if s.name = "org.freedesktop.DBus.Properties.PropertiesChanged" then
      match s.body.get? 1 with
      | none => .panicked "runtime error: index out of range"
      | some (.dict changedProperties) =>
        match changedProperties.lookup "LockedHint" with
        | none => .ignored
        | some (.bool isLocked) => .deliveredBool isLocked dc.lockedHintSignals
        | some _ => .panicked "PropertiesChanged signal LockedHint is not a boolean"
      | some _ => .panicked
          "interface conversion: body[1] is not map[string]dbus.Variant"
    else
      .ignored

/-! ## `pkg/lock`: `NewDbusSessionLock` session resolution -/

/-- Result of `NewDbusSessionLock` (src/pkg/lock/lock.go:87-155): a `Lock`
whose session object has the recorded path, an error, or a Go runtime panic
(indexing `session[0]` / `session[4]` on a too-short row). -/
inductive NewLockResult where
  | ok (loginSessionObjectPath : String)
  | err (msg : String)
  | panicked
deriving DecidableEq, Repr

/-- The `for i, sessionInt := range sessions` loop of `NewDbusSessionLock`
(src/pkg/lock/lock.go:115-135): scans for the row whose first field equals
`sessionId`, yielding its fifth field as the session object path; on a
match it breaks. `none` in the first component means the loop finished
without a match (in which case the source leaves `loginSessionObject` at
its initial value). -/
def resolveSessionPath (sessionId : String) : List GoVal → Option String ⊕ NewLockResult
  | [] => .inl none
  | sessionInt :: rest =>
    match sessionInt with
    | .arr session =>
      match session.get? 0 with
      | none => .inr .panicked
      | some (.str currentSessionId) =>
        if currentSessionId = sessionId then
          match session.get? 4 with
          | none => .inr .panicked
          | some (.objPath sessionPath) => .inl (some sessionPath)
          | some _ => .inr (.err "session[4] is not an ObjectPath")
        else
          resolveSessionPath sessionId rest
      | some _ => .inr (.err "session[0] is not a string")
    | _ => .inr (.err "session is not an array of interface")

/-- Embedding of `NewDbusSessionLock` (src/pkg/lock/lock.go:87-155).
`connectOk` is the result of `dbus.ConnectSystemBus`; `listSessionsReply`
is the decoded `ListSessions` reply (`none` when the call fails). The
source initializes `result.loginSessionObject` to the manager object at
`login1Path` before the loop, so the `== nil` guard after the loop can
never fire. -/
def NewDbusSessionLock (sessionId : String) (connectOk : Bool)
    (listSessionsReply : Option (List GoVal)) : NewLockResult :=
  if sessionId = "" then
    .err "sessionId is empty"
  else if !connectOk then
    .err "failed to connect to system bus"
  else
    let initialObjectPath : Option String := some login1Path
    match listSessionsReply with
    | none => .err "ListSessions call failed"
    | some sessions =>
      match resolveSessionPath sessionId sessions with
      | .inr r => r
      | .inl found =>
        let loginSessionObject : Option String :=
          match found with
          | some p => some p
          | none => initialObjectPath
        match loginSessionObject with
        | none => .err "failed to find session object"
        | some p => .ok p

/-! ## Reference-counted activation runs against a fake counting transport -/

/-- A fake transport that records whether a match is currently registered
and counts the add-match / remove-match calls. Every call succeeds. -/
structure FakeT where
  active : Bool
  addCalls : Nat
  removeCalls : Nat
deriving DecidableEq, Repr

/-- Apply the transport calls issued by one operation to the fake. -/
def FakeT.apply (ft : FakeT) : List TCall → FakeT
  | [] => ft
  | .addMatch _ :: rest =>
    FakeT.apply ⟨true, ft.addCalls + 1, ft.removeCalls⟩ rest
  | .removeMatch _ :: rest =>
    FakeT.apply ⟨false, ft.addCalls, ft.removeCalls + 1⟩ rest

/-- One subscribe or unsubscribe request on a single signal kind. -/
inductive SubOp where
  | add (c : Chan)
  | remove (c : Chan)
deriving DecidableEq, Repr

/-- Accumulator of a run on the lock facility's Lock signal kind: facility
state, fake transport, and the counted subscriber-set edges (`e01`: number
of empty-to-nonempty transitions, `e10`: nonempty-to-empty). -/
structure LockRunAcc where
  dc : DbusCon
  ft : FakeT
  e01 : Nat
  e10 : Nat
deriving DecidableEq

/-- Run one operation of the Lock signal kind (`AddLockSignal` /
`RemoveLockSignal`) against the fake transport, counting edges. -/
def lockKindStep (acc : LockRunAcc) (op : SubOp) : LockRunAcc :=
  let out := match op with
    | .add c => acc.dc.AddLockSignal (some c) true
    | .remove c => acc.dc.RemoveLockSignal (some c) true
  { dc := out.state
    ft := acc.ft.apply out.calls
    e01 := acc.e01 +
      (if acc.dc.lockSignals = ∅ ∧ out.state.lockSignals ≠ ∅ then 1 else 0)
    e10 := acc.e10 +
      (if acc.dc.lockSignals ≠ ∅ ∧ out.state.lockSignals = ∅ then 1 else 0) }

/-- Run a sequence of Lock-kind operations from the freshly-constructed
facility and an idle fake transport. -/
def lockKindRun (ops : List SubOp) : LockRunAcc :=
  ops.foldl lockKindStep ⟨DbusCon.fresh login1Path, ⟨false, 0, 0⟩, 0, 0⟩

/-- Accumulator of a run on the inhibition facility's PrepareForSleep signal
kind. `remEmptyOps` counts the unsubscribe operations that found or left
the set empty (each of which issues a remove-match in the source). -/
structure InhRunAcc where
  i : Inhibitor
  ft : FakeT
  e01 : Nat
  e10 : Nat
  remEmptyOps : Nat
deriving DecidableEq

/-- Run one operation of the PrepareForSleep signal kind against the fake
transport, counting edges and empty-unsubscribes. -/
def inhibitKindStep (acc : InhRunAcc) (op : SubOp) : InhRunAcc :=
  let out := match op with
    | .add c => acc.i.SubscribePrepareForSleep (some c) true
    | .remove c => acc.i.UnsubscribePrepareForSleep (some c) true
  { i := out.state
    ft := acc.ft.apply out.calls
    e01 := acc.e01 +
      (if acc.i.prepareForSleepSubs = ∅ ∧ out.state.prepareForSleepSubs ≠ ∅
        then 1 else 0)
    e10 := acc.e10 +
      (if acc.i.prepareForSleepSubs ≠ ∅ ∧ out.state.prepareForSleepSubs = ∅
        then 1 else 0)
    remEmptyOps := acc.remEmptyOps +
      (match op with
        | .add _ => 0
        | .remove _ =>
          if out.state.prepareForSleepSubs = ∅ then 1 else 0) }

/-- Run a sequence of PrepareForSleep-kind operations from the
freshly-constructed `Inhibitor` and an idle fake transport. -/
def inhibitKindRun (ops : List SubOp) : InhRunAcc :=
  ops.foldl inhibitKindStep ⟨Inhibitor.new, ⟨false, 0, 0⟩, 0, 0, 0⟩

/-! ## Invariants and fixed test data -/

/-- Invariant tying the lock facility's Lock-kind state to the fake counting
transport: the activation flag mirrors the transport, the transport match is
registered iff the subscriber set is non-empty, and the add/remove-match
call counts equal the 0-to-1 / 1-to-0 edge counts of the subscriber set. -/
def LockInv (acc : LockRunAcc) : Prop :=
  acc.dc.lockSignalActive = acc.ft.active ∧
  (acc.ft.active = true ↔ acc.dc.lockSignals ≠ ∅) ∧
  acc.ft.addCalls = acc.e01 ∧
  acc.ft.removeCalls = acc.e10

/-- Invariant for the inhibition facility's PrepareForSleep kind: the match
is still registered iff the set is non-empty and add-match calls track
0-to-1 edges, but remove-match calls equal the number of unsubscribes that
end on an empty set — of which the 1-to-0 edges are only a subset, because
the unguarded remove helper also fires when the set was already empty. -/
def InhInv (acc : InhRunAcc) : Prop :=
  (acc.ft.active = true ↔ acc.i.prepareForSleepSubs ≠ ∅) ∧
  acc.ft.addCalls = acc.e01 ∧
  acc.ft.removeCalls = acc.remEmptyOps ∧
  acc.e10 ≤ acc.remEmptyOps

/-- A `ListSessions` reply containing a single well-formed session row whose
id (`"s2"`) differs from the requested one. -/
def c3FailingSessionsReply : List GoVal :=
  [.arr [.str "s2", .int 1000, .str "user", .str "seat0",
    .objPath "/org/freedesktop/login1/session/_32"]]

/-! ## Helper lemmas -/

/-- The left fold of the string builder loop in `joinWhat` computes the
separator join. -/
theorem sepJoin_foldl (e : String) (rest : List String) :
    rest.foldl (fun acc s => acc ++ ":" ++ s) e = sepJoin (e :: rest) := by
  induction rest generalizing e with
  | nil => rfl
  | cons a rest ih =>
    rw [List.foldl_cons, ih]
    cases rest with
    | nil => rfl
    | cons b rest' => simp [sepJoin, String.append_assoc]

/-- For a non-empty slice the `Grow` argument of `joinWhat` is non-negative. -/
theorem joinWhatGrowArg_cons_nonneg (e : What) (rest : List What) :
    ¬ joinWhatGrowArg (e :: rest) < 0 := by
  unfold joinWhatGrowArg
  simp only [List.map_cons, List.sum_cons, List.length_cons]
  have hsum : (0 : Int) ≤ ((rest.map (fun x : What => (x.length : Int))).sum) := by
    apply List.sum_nonneg
    intro x hx
    simp only [List.mem_map] at hx
    obtain ⟨y, _, rfl⟩ := hx
    positivity
  omega

/-- On a non-empty slice `joinWhat` returns the built string. -/
theorem joinWhat_cons (e : What) (rest : List What) :
    joinWhat (e :: rest) = .ok (rest.foldl (fun acc s => acc ++ ":" ++ s) e) := by
  unfold joinWhat
  rw [if_neg (joinWhatGrowArg_cons_nonneg e rest)]

/-- `dbusCon.Close` panics iff its close channel cannot be closed, and a
successful close leaves the channel closed. -/
theorem dbusClose_handler_spec (dc : DbusCon) (b1 b2 b3 : Bool) :
    ((dc.Close b1 b2 b3).outcome = .panicClose ↔ dc.closeSignalHandler.closeChan = none) ∧
    (dc.closeSignalHandler = .openChan →
      (dc.Close b1 b2 b3).state.closeSignalHandler = .closedChan) := by
  obtain ⟨p, s1, s2, s3, f1, f2, f3, ch⟩ := dc
  cases f1 <;> cases f2 <;> cases f3 <;> cases b1 <;> cases b2 <;> cases b3 <;> cases ch <;>
    simp [DbusCon.Close, DbusCon.removeLockSignal, DbusCon.removeUnlockSignal,
      DbusCon.removePropertiesChangedSignal, ChanLifecycle.closeChan]

/-- One Lock-kind operation preserves `LockInv`. -/
theorem lockKindStep_inv (acc : LockRunAcc) (op : SubOp) (h : LockInv acc) :
    LockInv (lockKindStep acc op) := by
  obtain ⟨dc, ft, e01, e10⟩ := acc
  obtain ⟨p, ls, hs, us, f1, f2, f3, chh⟩ := dc
  obtain ⟨fa, fadd, frem⟩ := ft
  obtain ⟨h1, h2, h3, h4⟩ := h
  simp only at h1 h2 h3 h4
  cases op with
  | add c =>
    cases f1
    · have hfa : fa = false := by subst h1; rfl
      subst hfa
      have hls : ls = ∅ := by
        by_contra hne
        exact absurd (h2.mpr hne) (by simp)
      subst hls
      simp [lockKindStep, DbusCon.AddLockSignal, FakeT.apply, LockInv,
        Finset.insert_ne_empty, h3, h4]
    · have hfa : fa = true := by subst h1; rfl
      subst hfa
      have hls : ls ≠ ∅ := h2.mp rfl
      simp [lockKindStep, DbusCon.AddLockSignal, FakeT.apply, LockInv,
        Finset.insert_ne_empty, h3, h4, hls]
  | remove c =>
    by_cases herase : ls.erase c = ∅
    · cases f1
      · have hfa : fa = false := by subst h1; rfl
        subst hfa
        have hls : ls = ∅ := by
          by_contra hne
          exact absurd (h2.mpr hne) (by simp)
        subst hls
        simp [lockKindStep, DbusCon.RemoveLockSignal, DbusCon.removeLockSignal,
          FakeT.apply, LockInv, herase, h3, h4]
      · have hfa : fa = true := by subst h1; rfl
        subst hfa
        have hls : ls ≠ ∅ := h2.mp rfl
        simp [lockKindStep, DbusCon.RemoveLockSignal, DbusCon.removeLockSignal,
          FakeT.apply, LockInv, herase, h3, h4, hls]
    · have hls : ls ≠ ∅ := by
        intro hc
        subst hc
        exact herase (Finset.erase_empty c)
      have hfa : fa = true := h2.mpr hls
      subst hfa
      have hf1 : f1 = true := h1
      subst hf1
      simp [lockKindStep, DbusCon.RemoveLockSignal, FakeT.apply, LockInv,
        herase, h3, h4, hls]

/-- Every Lock-kind run from the fresh facility satisfies `LockInv`. -/
theorem lockKindRun_inv (ops : List SubOp) : LockInv (lockKindRun ops) := by
  have hstep : ∀ (l : List SubOp) (acc : LockRunAcc), LockInv acc →
      LockInv (l.foldl lockKindStep acc) := by
    intro l
    induction l with
    | nil => intro acc h; exact h
    | cons op rest ih => intro acc h; exact ih _ (lockKindStep_inv acc op h)
  exact hstep ops _ (by refine ⟨rfl, by simp [DbusCon.fresh], rfl, rfl⟩)

/-- One PrepareForSleep-kind operation preserves `InhInv`. -/
theorem inhibitKindStep_inv (acc : InhRunAcc) (op : SubOp) (h : InhInv acc) :
    InhInv (inhibitKindStep acc op) := by
  obtain ⟨i, ft, e01, e10, rem⟩ := acc
  obtain ⟨sl, sh, chh⟩ := i
  obtain ⟨fa, fadd, frem⟩ := ft
  obtain ⟨h1, h2, h3, h4⟩ := h
  simp only at h1 h2 h3 h4
  cases op with
  | add c =>
    by_cases hsl : sl = ∅
    · have hfa : fa = false := by
        cases hq : fa
        · rfl
        · exact absurd (h1.mp hq) (by simp [hsl])
      subst hfa hsl
      simp [inhibitKindStep, Inhibitor.SubscribePrepareForSleep, FakeT.apply, InhInv,
        Finset.insert_ne_empty, h2, h3, h4]
    · have hfa : fa = true := h1.mpr hsl
      subst hfa
      simp [inhibitKindStep, Inhibitor.SubscribePrepareForSleep, FakeT.apply, InhInv,
        Finset.insert_ne_empty, h2, h3, h4, hsl]
  | remove c =>
    by_cases herase : sl.erase c = ∅
    · by_cases hsl : sl = ∅
      · have hfa : fa = false := by
          cases hq : fa
          · rfl
          · exact absurd (h1.mp hq) (by simp [hsl])
        subst hfa hsl
        simp [inhibitKindStep, Inhibitor.UnsubscribePrepareForSleep, FakeT.apply, InhInv,
          herase, h2, h3, h4]
        omega
      · have hfa : fa = true := h1.mpr hsl
        subst hfa
        simp [inhibitKindStep, Inhibitor.UnsubscribePrepareForSleep, FakeT.apply, InhInv,
          herase, h2, h3, h4, hsl]
    · have hsl : sl ≠ ∅ := by
        intro hc
        subst hc
        exact herase (Finset.erase_empty c)
      have hfa : fa = true := h1.mpr hsl
      subst hfa
      simp [inhibitKindStep, Inhibitor.UnsubscribePrepareForSleep, FakeT.apply, InhInv,
        herase, h2, h3, h4, hsl]

/-- Every PrepareForSleep-kind run from the fresh `Inhibitor` satisfies
`InhInv`. -/
theorem inhibitKindRun_inv (ops : List SubOp) : InhInv (inhibitKindRun ops) := by
  have hstep : ∀ (l : List SubOp) (acc : InhRunAcc), InhInv acc →
      InhInv (l.foldl inhibitKindStep acc) := by
    intro l
    induction l with
    | nil => intro acc h; exact h
    | cons op rest ih => intro acc h; exact ih _ (inhibitKindStep_inv acc op h)
  exact hstep ops _ (by refine ⟨by simp [Inhibitor.new], rfl, rfl, le_refl 0⟩)

/-! ## Claims -/

/-- C1 counterexample: a single successful `UnsubscribePrepareForSleep` of a
never-subscribed channel on the fresh `Inhibitor` makes the facility issue
one remove-match (deactivation) call although the subscriber set underwent
no 1-to-0 edge at all — refuting "deactivation happens exactly once on the
1-to-0 edge of the subscriber count" for the inhibition facility. -/
theorem c1_deactivation_without_edge :
    (inhibitKindRun [.remove 0]).ft.removeCalls = 1 ∧
    (inhibitKindRun [.remove 0]).e10 = 0 := by
  constructor <;> decide

/-- C1 (amended): for every sequence of successful Subscribe/Unsubscribe
operations on one signal kind, the transport match is registered iff the
subscriber set is non-empty, and add-match calls happen exactly once per
0-to-1 edge. Remove-match calls happen exactly once per 1-to-0 edge on the
lock facility (whose remove helper is guarded by an activation flag); on
the inhibition facility they instead happen exactly once per unsubscribe
that ends on an empty set, which bounds the 1-to-0 edges from above but can
exceed them. -/
theorem c1_refcounted_activation (lockOps inhOps : List SubOp) :
    ((lockKindRun lockOps).dc.lockSignalActive = (lockKindRun lockOps).ft.active ∧
     ((lockKindRun lockOps).ft.active = true ↔ (lockKindRun lockOps).dc.lockSignals ≠ ∅) ∧
     (lockKindRun lockOps).ft.addCalls = (lockKindRun lockOps).e01 ∧
     (lockKindRun lockOps).ft.removeCalls = (lockKindRun lockOps).e10) ∧
    (((inhibitKindRun inhOps).ft.active = true ↔
        (inhibitKindRun inhOps).i.prepareForSleepSubs ≠ ∅) ∧
     (inhibitKindRun inhOps).ft.addCalls = (inhibitKindRun inhOps).e01 ∧
     (inhibitKindRun inhOps).ft.removeCalls = (inhibitKindRun inhOps).remEmptyOps ∧
     (inhibitKindRun inhOps).e10 ≤ (inhibitKindRun inhOps).remEmptyOps) :=
  ⟨lockKindRun_inv lockOps, inhibitKindRun_inv inhOps⟩

/-- C2 counterexample: on the lock facility, a first `AddLockSignal` whose
underlying add-match call fails returns an error, yet the channel has
already been inserted into the subscriber set — state did change. -/
theorem c2_failed_first_add_leaves_channel :
    ((DbusCon.fresh login1Path).AddLockSignal (some 0) false).ok = false ∧
    0 ∈ ((DbusCon.fresh login1Path).AddLockSignal (some 0) false).state.lockSignals := by
  constructor <;> decide

/-- C2 (amended): when the first subscriber's add-match call fails, the two
inhibition-facility Subscribe operations return an error and leave the state
unchanged, but the three lock-facility Add operations insert the channel
before issuing the call, so they return an error with the channel already
present in the subscriber set (the activation flag stays false). -/
theorem c2_first_subscriber_failure (i : Inhibitor) (dc : DbusCon) (ch : Chan)
    (hsleep : i.prepareForSleepSubs = ∅) (hshut : i.prepareForShutdownSubs = ∅)
    (hlock : dc.lockSignals = ∅) (hlockA : dc.lockSignalActive = false)
    (hunlock : dc.unlockSignals = ∅) (hunlockA : dc.unlockSignalActive = false)
    (hhint : dc.lockedHintSignals = ∅) (hhintA : dc.propertiesChangedActive = false) :
    (i.SubscribePrepareForSleep (some ch) false).ok = false ∧
    (i.SubscribePrepareForSleep (some ch) false).state = i ∧
    (i.SubscribePrepareForShutdown (some ch) false).ok = false ∧
    (i.SubscribePrepareForShutdown (some ch) false).state = i ∧
    (dc.AddLockSignal (some ch) false).ok = false ∧
    (dc.AddLockSignal (some ch) false).state.lockSignals = {ch} ∧
    (dc.AddUnlockSignal (some ch) false).ok = false ∧
    (dc.AddUnlockSignal (some ch) false).state.unlockSignals = {ch} ∧
    (dc.AddLockedSignal (some ch) false).ok = false ∧
    (dc.AddLockedSignal (some ch) false).state.lockedHintSignals = {ch} := by
  refine ⟨?_, ?_, ?_, ?_, ?_, ?_, ?_, ?_, ?_, ?_⟩ <;>
    simp [Inhibitor.SubscribePrepareForSleep, Inhibitor.SubscribePrepareForShutdown,
      DbusCon.AddLockSignal, DbusCon.AddUnlockSignal, DbusCon.AddLockedSignal,
      hsleep, hshut, hlock, hlockA, hunlock, hunlockA, hhint, hhintA]

/-- C2 witness: the amended statement instantiated at the fresh facilities
and channel 0. -/
theorem c2_first_subscriber_failure_witness :
    Inhibitor.new.prepareForSleepSubs = ∅ ∧
    (Inhibitor.new.SubscribePrepareForSleep (some 0) false).state = Inhibitor.new ∧
    ((DbusCon.fresh login1Path).AddLockSignal (some 0) false).ok = false ∧
    ((DbusCon.fresh login1Path).AddLockSignal (some 0) false).state.lockSignals = {0} :=
  have h := c2_first_subscriber_failure Inhibitor.new (DbusCon.fresh login1Path) 0
    rfl rfl rfl rfl rfl rfl rfl rfl
  ⟨rfl, h.2.1, h.2.2.2.2.1, h.2.2.2.2.2.1⟩

/-- C3: `NewDbusSessionLock` on a `ListSessions` reply that contains no
session with the requested id returns a nil error together with a `Lock`
whose session object is still the login1 manager object — not the error the
dead `loginSessionObject == nil` guard was meant to produce, because that
field is pre-initialized to the (non-nil) manager object. -/
theorem c3_missing_session_returns_degraded_lock :
    NewDbusSessionLock "s1" true (some c3FailingSessionsReply) = .ok login1Path ∧
    NewDbusSessionLock "s1" true (some c3FailingSessionsReply) ≠
      .err "failed to find session object" := by
  constructor
  · rfl
  · intro h
    rw [show NewDbusSessionLock "s1" true (some c3FailingSessionsReply) = .ok login1Path
      from rfl] at h
    exact absurd h (by decide)

/-- C4 counterexample: on the lock facility, the first `Close` returns
without panicking but a second `Close` panics (`close` of an
already-closed channel) — so Close is not idempotent. -/
theorem c4_second_close_panics :
    ((DbusCon.fresh login1Path).Close true true true).outcome ≠ .panicClose ∧
    (((DbusCon.fresh login1Path).Close true true true).state.Close true true true).outcome
      = .panicClose := by
  constructor <;> decide

/-- C4 (amended): for a lock facility with an open close channel the first
`Close` returns (no panic), but any second `Close` panics closing the
already-closed channel; on the `Inhibitor` even the first `Close` panics,
because its close channel is never initialized (nil). -/
theorem c4_close_not_idempotent (dc : DbusCon) (b1 b2 b3 b4 b5 b6 s1 s2 : Bool)
    (h : dc.closeSignalHandler = .openChan) :
    (∃ ok, (dc.Close b1 b2 b3).outcome = .returned ok) ∧
    ((dc.Close b1 b2 b3).state.Close b4 b5 b6).outcome = .panicClose ∧
    (Inhibitor.new.Close s1 s2).outcome = .panicClose := by
  obtain ⟨hiff, hstate⟩ := dbusClose_handler_spec dc b1 b2 b3
  refine ⟨?_, ?_, rfl⟩
  · cases ho : (dc.Close b1 b2 b3).outcome with
    | returned ok => exact ⟨ok, rfl⟩
    | panicClose =>
      rw [hiff] at ho
      rw [h] at ho
      exact Option.noConfusion ho
  · obtain ⟨hiff2, _⟩ := dbusClose_handler_spec ((dc.Close b1 b2 b3).state) b4 b5 b6
    rw [hiff2, hstate h]
    rfl

/-- C4 witness: the amended statement instantiated at the fresh lock
facility with all transport calls succeeding. -/
theorem c4_close_not_idempotent_witness :
    (DbusCon.fresh login1Path).closeSignalHandler = .openChan ∧
    ((∃ ok, ((DbusCon.fresh login1Path).Close true true true).outcome = .returned ok) ∧
     (((DbusCon.fresh login1Path).Close true true true).state.Close true true true).outcome
        = .panicClose ∧
     (Inhibitor.new.Close true true).outcome = .panicClose) :=
  ⟨rfl, c4_close_not_idempotent (DbusCon.fresh login1Path)
    true true true true true true true true rfl⟩

/-- C5: on the Wayland idle controller, for a call with at least one of the
idle/resume channels set, an input duration of -5000 ms is passed to
`GetIdleNotification` as 0, an input duration of 5000 ms is passed as 5000,
and any duration above `math.MaxUint32` makes `AddNotification` return an
error without calling `GetIdleNotification` and without a handle. -/
theorem c5_duration_clamping (idleSet resumeSet getOk : Bool) (d : Int)
    (h : idleSet = true ∨ resumeSet = true) (hd : d > maxUint32) :
    (addNotification idleSet resumeSet (-5000) getOk).calledWith = some 0 ∧
    (addNotification idleSet resumeSet 5000 getOk).calledWith = some 5000 ∧
    (addNotification idleSet resumeSet d getOk).isError = true ∧
    (addNotification idleSet resumeSet d getOk).calledWith = none ∧
    (addNotification idleSet resumeSet d getOk).handle = none := by
  have hns : (!idleSet && !resumeSet) = false := by
    rcases h with h | h <;> subst h <;> simp
  unfold addNotification
  rw [hns]
  simp only [Bool.false_eq_true, if_false]
  refine ⟨?_, ?_, ?_⟩
  · rw [if_neg (by unfold maxUint32; omega)]
    cases getOk <;> simp
  · rw [if_neg (by unfold maxUint32; omega)]
    cases getOk <;> simp
  · rw [if_pos hd]
    exact ⟨rfl, rfl, rfl⟩

/-- C5 witness: the clamping statement instantiated at a call with only the
idle channel set, a succeeding transport, and the out-of-range duration
2^32 (= `maxUint32 + 1`). -/
theorem c5_duration_clamping_witness :
    (true = true ∨ false = true) ∧ ((4294967296 : Int) > maxUint32) ∧
    ((addNotification true false (-5000) true).calledWith = some 0 ∧
     (addNotification true false 5000 true).calledWith = some 5000 ∧
     (addNotification true false 4294967296 true).isError = true ∧
     (addNotification true false 4294967296 true).calledWith = none ∧
     (addNotification true false 4294967296 true).handle = none) :=
  ⟨Or.inl rfl, by decide,
    c5_duration_clamping true false true 4294967296 (Or.inl rfl) (by decide)⟩

/-- C6 counterexample: unsubscribing a never-subscribed channel from the
inhibition facility whose subscriber set is empty issues a remove-match
call; when that transport call fails (as D-Bus does for a match rule that
was never added), `UnsubscribePrepareForSleep` returns a non-nil error,
not success. -/
theorem c6_unsubscribe_never_subscribed_errors :
    (0 : Chan) ∉ Inhibitor.new.prepareForSleepSubs ∧
    (Inhibitor.new.UnsubscribePrepareForSleep (some 0) false).ok = false := by
  constructor <;> decide

/-- C6 (amended): unsubscribing a never-subscribed, non-nil channel never
changes the membership of other subscribers, and returns success with no
transport call whenever other subscribers of that signal kind remain. When
the subscriber set is empty, the inhibition facility always issues a
remove-match call and surfaces that call's failure as an error; the lock
facility issues no call and returns success while its activation flag is
clear, but in the reachable state where the flag is still set (left behind
by an earlier failed remove-match, which returns before clearing the flag)
it too issues a remove-match call and surfaces its failure as an error. -/
theorem c6_unsubscribe_never_subscribed (dc : DbusCon) (i : Inhibitor)
    (ch : Chan) (rmOk : Bool)
    (hdc : ch ∉ dc.lockSignals)
    (hi : ch ∉ i.prepareForSleepSubs) :
    ((dc.RemoveLockSignal (some ch) rmOk).state.lockSignals = dc.lockSignals ∧
     (dc.lockSignals ≠ ∅ →
        (dc.RemoveLockSignal (some ch) rmOk).ok = true ∧
        (dc.RemoveLockSignal (some ch) rmOk).calls = []) ∧
     (dc.lockSignals = ∅ → dc.lockSignalActive = false →
        (dc.RemoveLockSignal (some ch) rmOk).ok = true ∧
        (dc.RemoveLockSignal (some ch) rmOk).calls = []) ∧
     (dc.lockSignals = ∅ → dc.lockSignalActive = true →
        (dc.RemoveLockSignal (some ch) rmOk).calls = [.removeMatch .lockK] ∧
        (dc.RemoveLockSignal (some ch) rmOk).ok = rmOk)) ∧
    ((i.UnsubscribePrepareForSleep (some ch) rmOk).state.prepareForSleepSubs
        = i.prepareForSleepSubs ∧
     (i.prepareForSleepSubs ≠ ∅ →
        (i.UnsubscribePrepareForSleep (some ch) rmOk).ok = true ∧
        (i.UnsubscribePrepareForSleep (some ch) rmOk).calls = []) ∧
     (i.prepareForSleepSubs = ∅ →
        (i.UnsubscribePrepareForSleep (some ch) rmOk).calls = [.removeMatch .sleepK] ∧
        (i.UnsubscribePrepareForSleep (some ch) rmOk).ok = rmOk)) := by
  have herase : dc.lockSignals.erase ch = dc.lockSignals := Finset.erase_eq_of_not_mem hdc
  have hierase : i.prepareForSleepSubs.erase ch = i.prepareForSleepSubs :=
    Finset.erase_eq_of_not_mem hi
  constructor
  · by_cases hempty : dc.lockSignals = ∅
    · cases hfa : dc.lockSignalActive <;> cases rmOk <;>
        simp [DbusCon.RemoveLockSignal, DbusCon.removeLockSignal, herase, hempty, hfa]
    · simp [DbusCon.RemoveLockSignal, herase, hempty]
  · by_cases hempty : i.prepareForSleepSubs = ∅
    · cases rmOk <;>
        simp [Inhibitor.UnsubscribePrepareForSleep, hierase, hempty]
    · simp [Inhibitor.UnsubscribePrepareForSleep, hierase, hempty]

/-- C6 witness: the amended statement instantiated at a lock facility in the
flag-set, empty-set state (as left behind by a failed remove-match) with a
failing transport, the fresh `Inhibitor`, and channel 0. -/
theorem c6_unsubscribe_never_subscribed_witness :
    ((0 : Chan) ∉ (∅ : Finset Chan)) ∧
    ((({ DbusCon.fresh login1Path with lockSignalActive := true
        } : DbusCon).RemoveLockSignal (some 0) false).state.lockSignals = ∅ ∧
     (({ DbusCon.fresh login1Path with lockSignalActive := true
        } : DbusCon).RemoveLockSignal (some 0) false).calls = [.removeMatch .lockK] ∧
     (({ DbusCon.fresh login1Path with lockSignalActive := true
        } : DbusCon).RemoveLockSignal (some 0) false).ok = false ∧
     (Inhibitor.new.UnsubscribePrepareForSleep (some 0) false).state.prepareForSleepSubs
        = Inhibitor.new.prepareForSleepSubs) :=
  have h := c6_unsubscribe_never_subscribed
    ({ DbusCon.fresh login1Path with lockSignalActive := true })
    Inhibitor.new 0 false (by decide) (by decide)
  ⟨by decide, h.1.1, (h.1.2.2.2 rfl rfl).1, (h.1.2.2.2 rfl rfl).2, h.2.1⟩

/-- C7: for an incoming signal whose path matches the facility's object and
whose member is a handled signal kind, a body that does not have the
statically expected shape makes the dispatch panic: on the inhibition
facility a `PrepareForSleep`/`PrepareForShutdown` body whose first element
is missing or not a boolean, and on the lock facility a
`PropertiesChanged` body whose second element is not a property map or
whose `LockedHint` value is present but not a boolean. -/
theorem c7_bad_payload_shape_panics (i : Inhibitor) (dc : DbusCon) (s t : DSignal)
    (hpath : s.path = login1Path)
    (hname : s.name = "org.freedesktop.login1.Manager.PrepareForSleep" ∨
             s.name = "org.freedesktop.login1.Manager.PrepareForShutdown")
    (hbody : ∀ b : Bool, s.body.head? ≠ some (.bool b))
    (tpath : t.path = dc.loginSessionObjectPath)
    (tname : t.name = "org.freedesktop.DBus.Properties.PropertiesChanged")
    (tbody : (∀ m, t.body.get? 1 ≠ some (.dict m)) ∨
      (∃ m v, t.body.get? 1 = some (.dict m) ∧ m.lookup "LockedHint" = some v ∧
        ∀ b : Bool, v ≠ .bool b)) :
    (i.handleIncomingSignal (some s)).isPanic = true ∧
    (dc.handleIncomingSignal (some t)).isPanic = true := by
  constructor
  · simp only [Inhibitor.handleIncomingSignal]
    rw [if_neg (by simp [hpath])]
    rcases hname with h | h
    · rw [if_pos h]
      cases hb : s.body.head? with
      | none => rfl
      | some v =>
        cases v with
        | bool b => exact absurd hb (hbody b)
        | _ => rfl
    · rw [if_neg (by rw [h]; decide), if_pos h]
      cases hb : s.body.head? with
      | none => rfl
      | some v =>
        cases v with
        | bool b => exact absurd hb (hbody b)
        | _ => rfl
  · simp only [DbusCon.handleIncomingSignal]
    rw [if_neg (by simp [tpath]), if_neg (by rw [tname]; decide),
      if_neg (by rw [tname]; decide), if_pos tname]
    rcases tbody with hl | ⟨m, v, hm, hv, hnb⟩
    · cases hb : t.body.get? 1 with
      | none => rfl
      | some v =>
        cases v with
        | dict m => exact absurd hb (hl m)
        | _ => rfl
    · rw [hm]
      show (match List.lookup "LockedHint" m with
        | none => DispatchOutcome.ignored
        | some (GoVal.bool isLocked) => DispatchOutcome.deliveredBool isLocked dc.lockedHintSignals
        | some _ => DispatchOutcome.panicked "PropertiesChanged signal LockedHint is not a boolean").isPanic = true
      rw [hv]
      cases v with
      | bool b => exact absurd rfl (hnb b)
      | _ => rfl

/-- C7 witness: the dispatch panics at a concrete `PrepareForSleep` signal
whose body holds a string instead of a boolean, and at a concrete
`PropertiesChanged` signal whose `LockedHint` value is a string. -/
theorem c7_bad_payload_shape_panics_witness :
    ((⟨login1Path, "org.freedesktop.login1.Manager.PrepareForSleep",
        [.str "oops"]⟩ : DSignal).path = login1Path) ∧
    ((Inhibitor.new.handleIncomingSignal (some
        ⟨login1Path, "org.freedesktop.login1.Manager.PrepareForSleep",
          [.str "oops"]⟩)).isPanic = true ∧
     (((DbusCon.fresh login1Path).handleIncomingSignal (some
        ⟨login1Path, "org.freedesktop.DBus.Properties.PropertiesChanged",
          [.other, .dict [("LockedHint", .str "yes")]]⟩)).isPanic = true)) :=
  ⟨rfl, c7_bad_payload_shape_panics Inhibitor.new (DbusCon.fresh login1Path)
    ⟨login1Path, "org.freedesktop.login1.Manager.PrepareForSleep", [.str "oops"]⟩
    ⟨login1Path, "org.freedesktop.DBus.Properties.PropertiesChanged",
      [.other, .dict [("LockedHint", .str "yes")]]⟩
    rfl (Or.inl rfl) (fun b h => by simp at h) rfl rfl
    (Or.inr ⟨[("LockedHint", .str "yes")], .str "yes", rfl, rfl,
      fun b h => by simp at h⟩)⟩

/-- C8: the wire string handed to the `Inhibit` RPC for a non-empty list of
`What` values is the values joined with the separator `:`; in particular
`[WhatSleep]` yields `"sleep"` and `[WhatSleep, WhatIdle]` yields
`"sleep:idle"`. -/
theorem c8_what_joining :
    (∀ (w : What) (ws : List What),
      inhibitWhatWireArg (w :: ws) = .ok (sepJoin (w :: ws))) ∧
    inhibitWhatWireArg [WhatSleep] = .ok "sleep" ∧
    inhibitWhatWireArg [WhatSleep, WhatIdle] = .ok "sleep:idle" := by
  refine ⟨fun w ws => ?_, by decide, by decide⟩
  rw [inhibitWhatWireArg, joinWhat_cons, sepJoin_foldl]

/-- C9: the `Inhibitor` built by `New` leaves `closeSignalHandler` at the
nil channel: a receive on it can never be selected (so the background
goroutine's shutdown case is dead), and any first `Close` panics when it
executes `close` on that nil channel. -/
theorem c9_close_signal_handler_nil :
    Inhibitor.new.closeSignalHandler = .nilChan ∧
    Inhibitor.new.closeSignalHandler.everReceivable = false ∧
    (∀ rmShutdownOk rmSleepOk : Bool,
      (Inhibitor.new.Close rmShutdownOk rmSleepOk).outcome = .panicClose) :=
  ⟨rfl, rfl, fun _ _ => rfl⟩

/-- C10 counterexample: `joinWhat` applied to the empty list does not panic
with the index-out-of-range access of `elems[0]` the claim names — the
negative-count panic in `strings.Builder.Grow` fires first. -/
theorem c10_empty_panic_is_not_index :
    joinWhat [] ≠ .panicIndexOutOfRange := by decide

/-- C10 (amended): for the empty list `joinWhat` (and hence the `what`
argument of an `Inhibit` call with zero categories) panics — in
`strings.Builder.Grow`, whose argument is computed as -1, before `elems[0]`
is ever evaluated — and `joinWhat` produces a string exactly for non-empty
input. -/
theorem c10_empty_join_panics :
    joinWhat [] = .panicGrowNegative ∧
    inhibitWhatWireArg [] = .panicGrowNegative ∧
    (∀ (w : What) (ws : List What), ∃ s, joinWhat (w :: ws) = .ok s) := by
  refine ⟨by decide, by decide, fun w ws => ⟨_, joinWhat_cons w ws⟩⟩
